import Mathlib

/-!
Verification of the bounded-concurrency request engine in
`src/scripts/req_mock.py` (tinyID repository).

The Python source is shallowly embedded below:
  * `RequestStats` with `add_success` / `add_failure` / `get_summary`
    (lines 22-61) — latencies are modelled as exact rationals (seconds);
  * the per-attempt ingestion operation `Op` and `applyOp` / `runOps`,
    folding a batch of outcome ingestions over a fresh `RequestStats`;
  * `make_request` (lines 64-98) as a function of an `AttemptTrace`: the
    environment's behaviour for one attempt (HTTP response or raised
    exception, together with the wall-clock instants the script samples
    with `time.time()`);
  * the `asyncio.Semaphore` discipline of `bounded_request`
    (lines 112-116) as a counting transition system `SemStep`;
  * the argument validation of `main` (lines 184-201).

Python's `round(x, 2)` (round-half-to-even to two decimal places) is
modelled exactly on ℚ by `round2`.
-/

namespace ReqMock

/-- `RequestStats.__init__` (lines 24-29): all counters zero, empty
latency and error lists.  Latencies are seconds, as exact rationals. -/
structure RequestStats where
  total_requests : ℕ
  successful_requests : ℕ
  failed_requests : ℕ
  response_times : List ℚ
  errors : List String
deriving DecidableEq

def RequestStats.init : RequestStats :=
  { total_requests := 0, successful_requests := 0, failed_requests := 0,
    response_times := [], errors := [] }

/-- `RequestStats.add_success` (lines 31-34). -/
def RequestStats.add_success (s : RequestStats) (response_time : ℚ) : RequestStats :=
  { s with
    total_requests := s.total_requests + 1,
    successful_requests := s.successful_requests + 1,
    response_times := s.response_times ++ [response_time] }

/-- `RequestStats.add_failure` (lines 36-41): the error is always
appended; the latency is appended only when `response_time > 0`. -/
def RequestStats.add_failure (s : RequestStats) (error : String)
    (response_time : ℚ) : RequestStats :=
  { s with
    total_requests := s.total_requests + 1,
    failed_requests := s.failed_requests + 1,
    errors := s.errors ++ [error],
    response_times :=
      if 0 < response_time then s.response_times ++ [response_time]
      else s.response_times }

/-- Python's `min(...)` over a nonempty list (the source guards the empty
case separately); `0` on `[]` is arbitrary and never relied on. -/
def pyMin : List ℚ → ℚ
  | [] => 0
  | x :: xs => xs.foldl min x

/-- Python's `max(...)` over a nonempty list. -/
def pyMax : List ℚ → ℚ
  | [] => 0
  | x :: xs => xs.foldl max x

/-- Round a rational to the nearest integer, ties to even — the tie rule
of Python's builtin `round`. -/
def roundHalfEven (q : ℚ) : ℤ :=
  if Int.fract q = 1 / 2 then (if Even ⌊q⌋ then ⌊q⌋ else ⌊q⌋ + 1)
  else round q

/-- Python's `round(q, 2)`: round to two decimal places, ties to even. -/
def round2 (q : ℚ) : ℚ := (roundHalfEven (q * 100) : ℚ) / 100

/-- The dictionary returned by `RequestStats.get_summary` (lines 43-61). -/
structure Summary where
  total_requests : ℕ
  successful_requests : ℕ
  failed_requests : ℕ
  success_rate : ℚ
  avg_response_time_ms : ℚ
  min_response_time_ms : ℚ
  max_response_time_ms : ℚ
  errors : List String
deriving DecidableEq

/-- `RequestStats.get_summary` (lines 43-61): averages over the recorded
latencies when there are any, otherwise all three latency figures are 0;
the three millisecond fields are `round(x * 1000, 2)`; `errors[:10]`. -/
def RequestStats.get_summary (s : RequestStats) : Summary :=
  let avg_response_time : ℚ :=
    if s.response_times = [] then 0
    else s.response_times.sum / (s.response_times.length : ℚ)
  let min_response_time : ℚ :=
    if s.response_times = [] then 0 else pyMin s.response_times
  let max_response_time : ℚ :=
    if s.response_times = [] then 0 else pyMax s.response_times
  { total_requests := s.total_requests,
    successful_requests := s.successful_requests,
    failed_requests := s.failed_requests,
    success_rate :=
      if 0 < s.total_requests then
        (s.successful_requests : ℚ) / (s.total_requests : ℚ) * 100
      else 0,
    avg_response_time_ms := round2 (avg_response_time * 1000),
    min_response_time_ms := round2 (min_response_time * 1000),
    max_response_time_ms := round2 (max_response_time * 1000),
    errors := s.errors.take 10 }

/-- One ingestion into the aggregator: exactly the two mutating calls the
script ever makes, `add_success(rt)` or `add_failure(err, rt)`. -/
inductive Op
  | success (response_time : ℚ)
  | failure (error : String) (response_time : ℚ)
deriving DecidableEq

def applyOp (s : RequestStats) : Op → RequestStats
  | .success t => s.add_success t
  | .failure e t => s.add_failure e t

/-- A batch's aggregator state: every ingestion folded, in completion
order, over a fresh `RequestStats` (line 104). -/
def runOps (ops : List Op) : RequestStats :=
  ops.foldl applyOp RequestStats.init

def Op.isSuccess : Op → Bool
  | .success _ => true
  | .failure _ _ => false

/-- The error message an ingestion contributes to `errors`, if any. -/
def Op.errOf : Op → Option String
  | .success _ => none
  | .failure e _ => some e

/-- The latency an ingestion contributes to `response_times`, if any
(failures contribute only a positive latency). -/
def Op.recTime : Op → Option ℚ
  | .success t => some t
  | .failure _ t => if 0 < t then some t else none

/-- The latency value carried by an ingestion (recorded in the Outcome
Record even when not appended to `response_times`). -/
def Op.timeOf : Op → ℚ
  | .success t => t
  | .failure _ t => t

/-- What the environment did during one attempt: either an HTTP response
arrived (any status, with a body), or the awaited call raised an
`aiohttp.ClientError` (transport-level failure: connect/read/write
error — the spec classifies expiry of the 30-second total timeout here
too), or some other exception was raised. -/
inductive AttemptResult
  | response (status : ℕ) (body : String)
  | clientError (detail : String)
  | exception (detail : String)
deriving DecidableEq

/-- The wall-clock instants of one attempt, as sampled by `time.time()`
in `make_request`: `t_start` just before `session.get` (line 70),
`t_respond` when the response arrives / the exception is caught
(lines 73, 88, 94), and `t_body_read` once `response.text()` has
returned (after line 77; meaningful only in the response case). -/
structure AttemptTrace where
  result : AttemptResult
  t_start : ℚ
  t_respond : ℚ
  t_body_read : ℚ
deriving DecidableEq

/-- `aiohttp.ClientTimeout(total=30)` (line 108). -/
def client_timeout_total_seconds : ℕ := 30

/-- `make_request` (lines 64-98), given the environment's behaviour for
the attempt: returns the single ingestion performed and whether the
response body was read.  `response_time = end_time - start_time` is
taken at line 74, before the body is read; a 200 status is a success,
any other status is `"HTTP {status}: {first 100 chars of body}"`, an
`aiohttp.ClientError` is `"ClientError: {detail}"`, and any other
exception is `"Exception: {detail}"`, each timed to the moment the
response arrived / the exception was caught. -/
def make_request (tr : AttemptTrace) : Op × Bool :=
  match tr.result with
  | .response status body =>
      let response_time := tr.t_respond - tr.t_start
      if status = 200 then (.success response_time, true)
      else
        (.failure ("HTTP " ++ toString status ++ ": " ++ body.take 100)
          response_time, true)
  | .clientError d =>
      (.failure ("ClientError: " ++ d) (tr.t_respond - tr.t_start), false)
  | .exception d =>
      (.failure ("Exception: " ++ d) (tr.t_respond - tr.t_start), false)

/-- `run_concurrent_requests` (lines 101-140), statistics part: one
`make_request` per work item, each feeding exactly one ingestion into a
fresh aggregator; `traces` lists the attempts in completion order. -/
def run_concurrent_requests (traces : List AttemptTrace) : RequestStats :=
  runOps (traces.map (fun tr => (make_request tr).1))

/-- Abstract state of the batch's tasks and the semaphore of
`bounded_request` (lines 112-116): how many tasks still wait to acquire,
how many are inside the `async with semaphore` block (running
`make_request`), how many have finished, and the semaphore's counter. -/
structure SchedState where
  pending : ℕ
  holding : ℕ
  finished : ℕ
  avail : ℕ
deriving DecidableEq

/-- Batch start (lines 112, 119): `n` tasks created, none started,
semaphore counter at `k = concurrency`. -/
def SchedState.init (n k : ℕ) : SchedState :=
  { pending := n, holding := 0, finished := 0, avail := k }

/-- The two scheduler events of `bounded_request`: a pending task enters
the `async with semaphore` block only when the counter is positive,
decrementing it; a holding task leaves the block, incrementing it.
`asyncio.Semaphore.acquire` blocks while the counter is zero. -/
inductive SemStep : SchedState → SchedState → Prop
  | acquire (s : SchedState) (hp : 0 < s.pending) (ha : 0 < s.avail) :
      SemStep s
        { pending := s.pending - 1, holding := s.holding + 1,
          finished := s.finished, avail := s.avail - 1 }
  | release (s : SchedState) (hh : 0 < s.holding) :
      SemStep s
        { pending := s.pending, holding := s.holding - 1,
          finished := s.finished + 1, avail := s.avail + 1 }

/-- States the batch can reach from the start configuration. -/
def SchedReachable (n k : ℕ) (s : SchedState) : Prop :=
  Relation.ReflTransGen SemStep (SchedState.init n k) s

/-- Parsed CLI arguments (lines 169-182); `argparse` with `type=int`
places no sign restriction, so the integer fields are ℤ. -/
structure Args where
  url : String
  requests : ℤ
  concurrency : ℤ
  min_id : ℤ
  max_id : ℤ
deriving DecidableEq

/-- The configuration `main` hands to `run_concurrent_requests`. -/
structure BatchConfig where
  base_url : String
  num_requests : ℤ
  concurrency : ℤ
  min_id : ℤ
  max_id : ℤ
deriving DecidableEq

/-- The validation prefix of `main` (lines 184-201): each violated
precondition prints a message and returns before any batch work;
otherwise `run_concurrent_requests` is invoked with the arguments. -/
def main (a : Args) : Option BatchConfig :=
  if a.requests ≤ 0 then none
  else if a.concurrency ≤ 0 then none
  else if a.min_id ≥ a.max_id then none
  else some
    { base_url := a.url, num_requests := a.requests,
      concurrency := a.concurrency, min_id := a.min_id, max_id := a.max_id }

end ReqMock

namespace ReqMock

/-! ### Fold characterisation of the aggregator state -/

theorem foldl_total (ops : List Op) (s : RequestStats) :
    (ops.foldl applyOp s).total_requests = s.total_requests + ops.length := by
  induction ops generalizing s with
  | nil => simp
  | cons o rest ih =>
      cases o <;>
        simp [applyOp, RequestStats.add_success, RequestStats.add_failure, ih] <;>
        omega

theorem foldl_succ (ops : List Op) (s : RequestStats) :
    (ops.foldl applyOp s).successful_requests =
      s.successful_requests + ops.countP Op.isSuccess := by
  induction ops generalizing s with
  | nil => simp
  | cons o rest ih =>
      cases o <;>
        simp [applyOp, RequestStats.add_success, RequestStats.add_failure, ih,
          Op.isSuccess, List.countP_cons] <;>
        omega

theorem foldl_failed (ops : List Op) (s : RequestStats) :
    (ops.foldl applyOp s).failed_requests =
      s.failed_requests + ops.countP (fun o => ! o.isSuccess) := by
  induction ops generalizing s with
  | nil => simp
  | cons o rest ih =>
      cases o <;>
        simp [applyOp, RequestStats.add_success, RequestStats.add_failure, ih,
          Op.isSuccess, List.countP_cons] <;>
        omega

theorem foldl_times (ops : List Op) (s : RequestStats) :
    (ops.foldl applyOp s).response_times =
      s.response_times ++ ops.filterMap Op.recTime := by
  induction ops generalizing s with
  | nil => simp
  | cons o rest ih =>
      cases o with
      | success t =>
          simp [applyOp, RequestStats.add_success, ih, Op.recTime]
      | failure e t =>
          by_cases ht : 0 < t <;>
            simp [applyOp, RequestStats.add_failure, ih, Op.recTime, ht]

theorem foldl_errors (ops : List Op) (s : RequestStats) :
    (ops.foldl applyOp s).errors = s.errors ++ ops.filterMap Op.errOf := by
  induction ops generalizing s with
  | nil => simp
  | cons o rest ih =>
      cases o <;>
        simp [applyOp, RequestStats.add_success, RequestStats.add_failure, ih,
          Op.errOf]

theorem runOps_total (ops : List Op) :
    (runOps ops).total_requests = ops.length := by
  simp [runOps, foldl_total, RequestStats.init]

theorem runOps_succ (ops : List Op) :
    (runOps ops).successful_requests = ops.countP Op.isSuccess := by
  simp [runOps, foldl_succ, RequestStats.init]

theorem runOps_failed (ops : List Op) :
    (runOps ops).failed_requests = ops.countP (fun o => ! o.isSuccess) := by
  simp [runOps, foldl_failed, RequestStats.init]

theorem runOps_times (ops : List Op) :
    (runOps ops).response_times = ops.filterMap Op.recTime := by
  simp [runOps, foldl_times, RequestStats.init]

theorem runOps_errors (ops : List Op) :
    (runOps ops).errors = ops.filterMap Op.errOf := by
  simp [runOps, foldl_errors, RequestStats.init]

end ReqMock

namespace ReqMock

/-! ### Minimum / maximum of a latency list -/

theorem foldl_min_le_init (l : List ℚ) (a : ℚ) : l.foldl min a ≤ a := by
  induction l generalizing a with
  | nil => simp
  | cons x xs ih => exact le_trans (ih (min a x)) (min_le_left a x)

theorem foldl_min_le_of_mem (l : List ℚ) {x : ℚ} (hx : x ∈ l) :
    ∀ a : ℚ, l.foldl min a ≤ x := by
  induction hx with
  | head ys =>
      intro a
      exact le_trans (foldl_min_le_init ys (min a x)) (min_le_right a x)
  | tail y hmem ih =>
      intro a
      exact ih (min a y)

theorem foldl_min_mem (l : List ℚ) (a : ℚ) :
    l.foldl min a = a ∨ l.foldl min a ∈ l := by
  induction l generalizing a with
  | nil => left; rfl
  | cons y ys ih =>
      rcases ih (min a y) with h | h
      · rcases min_cases a y with ⟨he, _⟩ | ⟨he, _⟩
        · left; rw [List.foldl_cons, h, he]
        · right
          rw [List.foldl_cons, h, he]
          exact List.mem_cons_self y ys
      · right; exact List.mem_cons_of_mem y h

theorem pyMin_le_of_mem (l : List ℚ) {x : ℚ} (hx : x ∈ l) : pyMin l ≤ x := by
  cases l with
  | nil => cases hx
  | cons y ys =>
      rcases List.mem_cons.mp hx with h | h
      · subst h; exact foldl_min_le_init ys x
      · exact foldl_min_le_of_mem ys h y

theorem pyMin_mem (l : List ℚ) (hl : l ≠ []) : pyMin l ∈ l := by
  cases l with
  | nil => exact absurd rfl hl
  | cons y ys =>
      rcases foldl_min_mem ys y with h | h
      · show ys.foldl min y ∈ y :: ys
        rw [h]
        exact List.mem_cons_self y ys
      · exact List.mem_cons_of_mem y h

theorem pyMin_perm {l1 l2 : List ℚ} (h : l1.Perm l2) : pyMin l1 = pyMin l2 := by
  rcases eq_or_ne l1 [] with h1 | h1
  · subst h1
    rw [h.nil_eq]
  · have h2 : l2 ≠ [] := by
      intro he
      subst he
      exact h1 h.eq_nil
    exact le_antisymm
      (pyMin_le_of_mem l1 (h.mem_iff.mpr (pyMin_mem l2 h2)))
      (pyMin_le_of_mem l2 (h.mem_iff.mp (pyMin_mem l1 h1)))

theorem foldl_max_ge_init (l : List ℚ) (a : ℚ) : a ≤ l.foldl max a := by
  induction l generalizing a with
  | nil => simp
  | cons x xs ih => exact le_trans (le_max_left a x) (ih (max a x))

theorem foldl_max_ge_of_mem (l : List ℚ) {x : ℚ} (hx : x ∈ l) :
    ∀ a : ℚ, x ≤ l.foldl max a := by
  induction hx with
  | head ys =>
      intro a
      exact le_trans (le_max_right a x) (foldl_max_ge_init ys (max a x))
  | tail y hmem ih =>
      intro a
      exact ih (max a y)

theorem foldl_max_mem (l : List ℚ) (a : ℚ) :
    l.foldl max a = a ∨ l.foldl max a ∈ l := by
  induction l generalizing a with
  | nil => left; rfl
  | cons y ys ih =>
      rcases ih (max a y) with h | h
      · rcases max_cases a y with ⟨he, _⟩ | ⟨he, _⟩
        · left; rw [List.foldl_cons, h, he]
        · right
          rw [List.foldl_cons, h, he]
          exact List.mem_cons_self y ys
      · right; exact List.mem_cons_of_mem y h

theorem pyMax_ge_of_mem (l : List ℚ) {x : ℚ} (hx : x ∈ l) : x ≤ pyMax l := by
  cases l with
  | nil => cases hx
  | cons y ys =>
      rcases List.mem_cons.mp hx with h | h
      · subst h; exact foldl_max_ge_init ys x
      · exact foldl_max_ge_of_mem ys h y

theorem pyMax_mem (l : List ℚ) (hl : l ≠ []) : pyMax l ∈ l := by
  cases l with
  | nil => exact absurd rfl hl
  | cons y ys =>
      rcases foldl_max_mem ys y with h | h
      · show ys.foldl max y ∈ y :: ys
        rw [h]
        exact List.mem_cons_self y ys
      · exact List.mem_cons_of_mem y h

theorem pyMax_perm {l1 l2 : List ℚ} (h : l1.Perm l2) : pyMax l1 = pyMax l2 := by
  rcases eq_or_ne l1 [] with h1 | h1
  · subst h1
    rw [h.nil_eq]
  · have h2 : l2 ≠ [] := by
      intro he
      subst he
      exact h1 h.eq_nil
    exact le_antisymm
      (pyMax_ge_of_mem l2 (h.mem_iff.mp (pyMax_mem l1 h1)))
      (pyMax_ge_of_mem l1 (h.mem_iff.mpr (pyMax_mem l2 h2)))

/-! ### The two-decimal rounding of `round(x, 2)` -/

theorem abs_roundHalfEven_sub (q : ℚ) : |(roundHalfEven q : ℚ) - q| ≤ 1 / 2 := by
  unfold roundHalfEven
  by_cases hf : Int.fract q = 1 / 2
  · rw [if_pos hf]
    set n : ℤ := ⌊q⌋ with hn
    have hq : q = (n : ℚ) + 1 / 2 := by
      have := Int.fract_add_floor q
      rw [hf, ← hn] at this
      linarith
    by_cases he : Even n
    · rw [if_pos he, hq, abs_le]
      constructor <;> push_cast <;> linarith
    · rw [if_neg he, hq, abs_le]
      constructor <;> push_cast <;> linarith
  · rw [if_neg hf]
    rw [abs_sub_comm]
    exact abs_sub_round q

theorem abs_round2_sub (q : ℚ) : |round2 q - q| ≤ 1 / 200 := by
  have h := abs_roundHalfEven_sub (q * 100)
  have heq : round2 q - q = ((roundHalfEven (q * 100) : ℚ) - q * 100) / 100 := by
    rw [round2]
    ring
  rw [heq, abs_div]
  rw [abs_of_pos (by norm_num : (0 : ℚ) < 100)]
  linarith

theorem round2_hundredth (q : ℚ) : ∃ k : ℤ, round2 q = (k : ℚ) / 100 :=
  ⟨roundHalfEven (q * 100), rfl⟩

/-! ### Semaphore invariant -/

theorem sched_inv {n k : ℕ} {s : SchedState} (h : SchedReachable n k s) :
    s.avail + s.holding = k := by
  unfold SchedReachable at h
  induction h with
  | refl => simp [SchedState.init]
  | tail hsteps hstep ih =>
      cases hstep with
      | acquire hp ha => simp only []; omega
      | release hh => simp only []; omega

end ReqMock

namespace ReqMock

/-! ### The claims -/

/-- C1.  For every batch started with valid inputs (`num_requests > 0`,
`concurrency > 0`, `min_id < max_id`) that runs to completion without
interruption, every one of the `num_requests` attempts feeds exactly one
ingestion (`add_success` or `add_failure`) into the aggregator — in the
embedding, `run_concurrent_requests` folds exactly one `make_request`
ingestion per attempt trace — so the Summary's `total_requests` equals
`num_requests`. -/
theorem batch_total_requests_eq_num_requests
    (num_requests concurrency min_id max_id : ℕ)
    (hn : 0 < num_requests) (hc : 0 < concurrency) (hid : min_id < max_id)
    (traces : List AttemptTrace) (hlen : traces.length = num_requests) :
    ((run_concurrent_requests traces).get_summary).total_requests
      = num_requests := by
  show (run_concurrent_requests traces).total_requests = num_requests
  rw [run_concurrent_requests, runOps_total, List.length_map, hlen]

theorem batch_total_requests_eq_num_requests_witness :
    0 < 2 ∧ 0 < 1 ∧ 1 < 10 ∧
      ((run_concurrent_requests
          [⟨AttemptResult.response 200 ("ok"), 0, 1, 2⟩,
           ⟨AttemptResult.clientError ("boom"), 0, 3, 3⟩]).get_summary).total_requests
        = 2 :=
  ⟨by decide, by decide, by decide,
    batch_total_requests_eq_num_requests 2 1 1 10
      (by decide) (by decide) (by decide)
      [⟨AttemptResult.response 200 ("ok"), 0, 1, 2⟩,
       ⟨AttemptResult.clientError ("boom"), 0, 3, 3⟩] rfl⟩

/-- C2.  For every aggregator state, `get_summary` returns the three
counts unchanged; `success_rate = successful/total * 100` (0 when
`total_requests = 0`); the average, minimum and maximum of the recorded
latencies converted to milliseconds (`round(x*1000, 2)`), all three 0
when no latencies were recorded; and the first 10 error messages, which
for a batch state are the first 10 in ingestion order. -/
theorem get_summary_spec (s : RequestStats) (ops : List Op) :
    s.get_summary.total_requests = s.total_requests ∧
    s.get_summary.successful_requests = s.successful_requests ∧
    s.get_summary.failed_requests = s.failed_requests ∧
    (0 < s.total_requests →
      s.get_summary.success_rate =
        (s.successful_requests : ℚ) / (s.total_requests : ℚ) * 100) ∧
    (s.total_requests = 0 → s.get_summary.success_rate = 0) ∧
    (s.response_times = [] →
      s.get_summary.avg_response_time_ms = 0 ∧
      s.get_summary.min_response_time_ms = 0 ∧
      s.get_summary.max_response_time_ms = 0) ∧
    (s.response_times ≠ [] →
      s.get_summary.avg_response_time_ms =
        round2 (s.response_times.sum / (s.response_times.length : ℚ) * 1000) ∧
      s.get_summary.min_response_time_ms =
        round2 (pyMin s.response_times * 1000) ∧
      s.get_summary.max_response_time_ms =
        round2 (pyMax s.response_times * 1000)) ∧
    s.get_summary.errors = s.errors.take 10 ∧
    (runOps ops).errors = ops.filterMap Op.errOf := by
  refine ⟨rfl, rfl, rfl, ?_, ?_, ?_, ?_, rfl, runOps_errors ops⟩
  · intro ht
    simp [RequestStats.get_summary, ht]
  · intro ht
    simp [RequestStats.get_summary, ht]
  · intro ht
    refine ⟨?_, ?_, ?_⟩ <;>
      simp [RequestStats.get_summary, ht, round2, roundHalfEven, Int.fract]
  · intro ht
    exact ⟨by simp [RequestStats.get_summary, ht],
      by simp [RequestStats.get_summary, ht],
      by simp [RequestStats.get_summary, ht]⟩

theorem get_summary_spec_witness :
    (0 <
      (RequestStats.init.add_success 1).total_requests) ∧
    ((RequestStats.init.add_success 1).get_summary.success_rate
        = ((RequestStats.init.add_success 1).successful_requests : ℚ)
            / ((RequestStats.init.add_success 1).total_requests : ℚ) * 100) ∧
    ((RequestStats.init.add_success 1).get_summary.min_response_time_ms
        = round2 (pyMin (RequestStats.init.add_success 1).response_times * 1000)) :=
  ⟨by decide,
    (get_summary_spec (RequestStats.init.add_success 1) []).2.2.2.1 (by decide),
    ((get_summary_spec (RequestStats.init.add_success 1) []).2.2.2.2.2.2.1
      (by decide)).2.1⟩

/-- C3.  `total_requests == successful_requests + failed_requests` holds
at construction, is preserved by every `add_success` and every
`add_failure`, and therefore holds in every reachable aggregator state
(every fold of ingestions from the fresh state). -/
theorem stats_count_invariant :
    (RequestStats.init.total_requests
      = RequestStats.init.successful_requests
          + RequestStats.init.failed_requests) ∧
    (∀ (s : RequestStats) (t : ℚ),
      s.total_requests = s.successful_requests + s.failed_requests →
      (s.add_success t).total_requests
        = (s.add_success t).successful_requests
            + (s.add_success t).failed_requests) ∧
    (∀ (s : RequestStats) (e : String) (t : ℚ),
      s.total_requests = s.successful_requests + s.failed_requests →
      (s.add_failure e t).total_requests
        = (s.add_failure e t).successful_requests
            + (s.add_failure e t).failed_requests) ∧
    (∀ ops : List Op,
      (runOps ops).total_requests
        = (runOps ops).successful_requests + (runOps ops).failed_requests) := by
  refine ⟨rfl, ?_, ?_, ?_⟩
  · intro s t h
    simp [RequestStats.add_success]
    omega
  · intro s e t h
    simp [RequestStats.add_failure]
    omega
  · intro ops
    rw [runOps_total, runOps_succ, runOps_failed]
    have h := ops.length_eq_countP_add_countP Op.isSuccess
    simp only [decide_not, Bool.decide_eq_true] at h
    omega

theorem stats_count_invariant_witness :
    (RequestStats.init.add_success 2).total_requests
      = (RequestStats.init.add_success 2).successful_requests
          + (RequestStats.init.add_success 2).failed_requests :=
  stats_count_invariant.2.1 RequestStats.init 2 stats_count_invariant.1

/-- C4.  With concurrency limit `k`, in every state the batch can reach
from its start configuration, no more than `k` request-executor
invocations hold the Limiter simultaneously: tasks run `make_request`
only inside the semaphore's acquire/release scope, and the holder count
never exceeds `k`. -/
theorem semaphore_holders_le_concurrency (n k : ℕ) (s : SchedState)
    (h : SchedReachable n k s) : s.holding ≤ k := by
  have := sched_inv h
  omega

theorem semaphore_holders_le_concurrency_witness :
    (SchedState.init 5 3).holding ≤ 3 :=
  semaphore_holders_le_concurrency 5 3 (SchedState.init 5 3)
    Relation.ReflTransGen.refl

/-- Eleven failure ingestions with distinct error messages: enough to
overflow the 10-entry truncation in `get_summary`. -/
def permOpsA : List Op :=
  [.failure ("a") 0, .failure ("b") 0, .failure ("c") 0, .failure ("d") 0,
   .failure ("e") 0, .failure ("f") 0, .failure ("g") 0, .failure ("h") 0,
   .failure ("i") 0, .failure ("j") 0, .failure ("k") 0]

/-- C5 counterexample.  Ingesting the same eleven records in reversed
order yields a Summary whose `errors` field differs from the original
not merely in ordering: `"k"` appears in one and not in the other, so
the two Summaries are not identical up to `errors` ordering. -/
theorem summary_perm_counterexample :
    permOpsA.reverse.Perm permOpsA ∧
    ("k") ∈ ((runOps permOpsA.reverse).get_summary).errors ∧
    ("k") ∉ ((runOps permOpsA).get_summary).errors ∧
    ¬ (((runOps permOpsA.reverse).get_summary).errors.Perm
        (((runOps permOpsA).get_summary).errors)) := by
  refine ⟨List.reverse_perm permOpsA, ?_, ?_, ?_⟩ <;> decide

/-- C5 amended.  For every finite multiset of Outcome Records and every
two permutations of it, the two Summaries agree on every field except
`errors`; the aggregator's internal error sequences are permutations of
each other, and whenever at most 10 errors were ingested the two
Summaries' `errors` fields are also permutations of each other (with
more than 10 errors the first-10 truncation may select different
messages, as the counterexample shows). -/
theorem summary_perm_invariant (ops1 ops2 : List Op) (h : ops1.Perm ops2) :
    (runOps ops1).get_summary.total_requests
      = (runOps ops2).get_summary.total_requests ∧
    (runOps ops1).get_summary.successful_requests
      = (runOps ops2).get_summary.successful_requests ∧
    (runOps ops1).get_summary.failed_requests
      = (runOps ops2).get_summary.failed_requests ∧
    (runOps ops1).get_summary.success_rate
      = (runOps ops2).get_summary.success_rate ∧
    (runOps ops1).get_summary.avg_response_time_ms
      = (runOps ops2).get_summary.avg_response_time_ms ∧
    (runOps ops1).get_summary.min_response_time_ms
      = (runOps ops2).get_summary.min_response_time_ms ∧
    (runOps ops1).get_summary.max_response_time_ms
      = (runOps ops2).get_summary.max_response_time_ms ∧
    ((runOps ops1).errors).Perm ((runOps ops2).errors) ∧
    ((runOps ops1).errors.length ≤ 10 →
      ((runOps ops1).get_summary.errors).Perm
        ((runOps ops2).get_summary.errors)) := by
  have htot : (runOps ops1).total_requests = (runOps ops2).total_requests := by
    rw [runOps_total, runOps_total, h.length_eq]
  have hsucc : (runOps ops1).successful_requests
      = (runOps ops2).successful_requests := by
    rw [runOps_succ, runOps_succ, h.countP_eq]
  have hfail : (runOps ops1).failed_requests
      = (runOps ops2).failed_requests := by
    rw [runOps_failed, runOps_failed, h.countP_eq]
  have htimes : ((runOps ops1).response_times).Perm
      ((runOps ops2).response_times) := by
    rw [runOps_times, runOps_times]
    exact h.filterMap _
  have herr : ((runOps ops1).errors).Perm ((runOps ops2).errors) := by
    rw [runOps_errors, runOps_errors]
    exact h.filterMap _
  have hnil : ((runOps ops1).response_times = [])
      ↔ ((runOps ops2).response_times = []) := by
    constructor <;> intro he
    · rw [he] at htimes
      exact htimes.nil_eq.symm
    · rw [he] at htimes
      exact htimes.eq_nil
  refine ⟨htot, hsucc, hfail, ?_, ?_, ?_, ?_, herr, ?_⟩
  · simp only [RequestStats.get_summary]
    rw [htot, hsucc]
  · simp only [RequestStats.get_summary]
    rcases eq_or_ne (runOps ops1).response_times [] with he | he
    · have he2 := hnil.mp he
      rw [if_pos he, if_pos he2]
    · have he2 : (runOps ops2).response_times ≠ [] :=
        fun hh => he (hnil.mpr hh)
      rw [if_neg he, if_neg he2, htimes.sum_eq, htimes.length_eq]
  · simp only [RequestStats.get_summary]
    rcases eq_or_ne (runOps ops1).response_times [] with he | he
    · have he2 := hnil.mp he
      rw [if_pos he, if_pos he2]
    · have he2 : (runOps ops2).response_times ≠ [] :=
        fun hh => he (hnil.mpr hh)
      rw [if_neg he, if_neg he2, pyMin_perm htimes]
  · simp only [RequestStats.get_summary]
    rcases eq_or_ne (runOps ops1).response_times [] with he | he
    · have he2 := hnil.mp he
      rw [if_pos he, if_pos he2]
    · have he2 : (runOps ops2).response_times ≠ [] :=
        fun hh => he (hnil.mpr hh)
      rw [if_neg he, if_neg he2, pyMax_perm htimes]
  · intro hle
    have hle2 : (runOps ops2).errors.length ≤ 10 := herr.length_eq ▸ hle
    show ((runOps ops1).errors.take 10).Perm ((runOps ops2).errors.take 10)
    rw [List.take_of_length_le hle, List.take_of_length_le hle2]
    exact herr

theorem summary_perm_invariant_witness :
    ((runOps [Op.success 1, Op.failure ("x") 2]).errors.length ≤ 10) ∧
    (((runOps [Op.success 1, Op.failure ("x") 2]).get_summary.errors).Perm
      ((runOps [Op.failure ("x") 2, Op.success 1]).get_summary.errors)) :=
  ⟨by decide,
    (summary_perm_invariant [Op.success 1, Op.failure ("x") 2]
      [Op.failure ("x") 2, Op.success 1] (by decide)).2.2.2.2.2.2.2.2
      (by decide)⟩

/-- A 200 response whose body takes 2 further seconds to read after the
response arrives: `t_start = 0`, `t_respond = 1`, `t_body_read = 3`. -/
def traceBodyRead : AttemptTrace :=
  { result := .response 200 ("ok"), t_start := 0, t_respond := 1,
    t_body_read := 3 }

/-- C6 counterexample.  `make_request` samples `end_time` on line 73,
before `response.text()` is awaited, so the recorded latency is the
time to response arrival (1s here), not the time to the body being
fully read (3s): the claim's timing rule fails on this attempt. -/
theorem latency_counterexample :
    Op.timeOf ((make_request traceBodyRead).1)
        = traceBodyRead.t_respond - traceBodyRead.t_start ∧
    Op.timeOf ((make_request traceBodyRead).1)
        ≠ traceBodyRead.t_body_read - traceBodyRead.t_start := by
  refine ⟨?_, ?_⟩ <;> norm_num [make_request, traceBodyRead, Op.timeOf]

/-- C6 amended.  For every request attempt that receives an HTTP
response (200 or not), the recorded `latency_seconds` is the wall-clock
duration from just before the request is sent to just after the response
arrives — measured before the response body is read. -/
theorem latency_measured_to_response (tr : AttemptTrace) (st : ℕ)
    (body : String) (hres : tr.result = .response st body) :
    Op.timeOf ((make_request tr).1) = tr.t_respond - tr.t_start := by
  by_cases h : st = 200 <;> simp [make_request, hres, h, Op.timeOf]

theorem latency_measured_to_response_witness :
    Op.timeOf ((make_request traceBodyRead).1)
      = traceBodyRead.t_respond - traceBodyRead.t_start :=
  latency_measured_to_response traceBodyRead 200 ("ok") rfl

/-- C7.  A transport-level failure (`aiohttp.ClientError`, covering
connect/read/write errors; the spec also classifies expiry of the
30-second total timeout, `ClientTimeout(total=30)`, here) is recorded as
a failure with message `"ClientError: {detail}"` and the elapsed time up
to the moment the exception is caught; any other unexpected exception is
recorded as `"Exception: {detail}"` under the same timing rule. -/
theorem error_classification (tr : AttemptTrace) (d : String) :
    (tr.result = .clientError d →
      (make_request tr).1
        = Op.failure ("ClientError: " ++ d) (tr.t_respond - tr.t_start)) ∧
    (tr.result = .exception d →
      (make_request tr).1
        = Op.failure ("Exception: " ++ d) (tr.t_respond - tr.t_start)) ∧
    client_timeout_total_seconds = 30 := by
  refine ⟨?_, ?_, rfl⟩ <;> intro hres <;> simp [make_request, hres]

theorem error_classification_witness :
    (make_request
        { result := .clientError ("boom"), t_start := 1, t_respond := 4,
          t_body_read := 4 }).1
      = Op.failure ("ClientError: " ++ "boom") ((4 : ℚ) - 1) :=
  (error_classification
    { result := .clientError ("boom"), t_start := 1, t_respond := 4,
      t_body_read := 4 } ("boom")).1 rfl

/-- C8.  `main` reports a configuration error (and starts no batch, so
no request is issued and no state is mutated) exactly when
`requests <= 0` or `concurrency <= 0` or `min_id >= max_id`; for every
argument vector satisfying all three preconditions it starts the batch
with exactly those arguments. -/
theorem main_validation (a : Args) :
    (main a = none
      ↔ (a.requests ≤ 0 ∨ a.concurrency ≤ 0 ∨ a.min_id ≥ a.max_id)) ∧
    (main a
        = some { base_url := a.url, num_requests := a.requests,
                 concurrency := a.concurrency, min_id := a.min_id,
                 max_id := a.max_id }
      ↔ (0 < a.requests ∧ 0 < a.concurrency ∧ a.min_id < a.max_id)) := by
  unfold main
  split_ifs with h1 h2 h3 <;> simp_all

theorem main_validation_witness :
    main { url := ("u"), requests := 5, concurrency := 2, min_id := 1,
           max_id := 10 }
      = some { base_url := ("u"), num_requests := 5, concurrency := 2,
               min_id := 1, max_id := 10 } :=
  (main_validation
    { url := ("u"), requests := 5, concurrency := 2, min_id := 1,
      max_id := 10 }).2.mpr (by decide)

/-- C9.  A non-200 HTTP response still has its body read (so the
connection can be reused), is classified as a failure, and its error
message is exactly `"HTTP {status}: {first 100 chars of body}"`, timed
like every response. -/
theorem non200_classification (tr : AttemptTrace) (st : ℕ) (body : String)
    (hres : tr.result = .response st body) (hst : st ≠ 200) :
    (make_request tr).1
      = Op.failure ("HTTP " ++ toString st ++ ": " ++ body.take 100)
          (tr.t_respond - tr.t_start) ∧
    (make_request tr).2 = true := by
  simp [make_request, hres, hst]

theorem non200_classification_witness :
    (make_request
        { result := .response 404 ("not found"), t_start := 0,
          t_respond := 2, t_body_read := 2 }).1
      = Op.failure ("HTTP " ++ toString 404 ++ ": " ++ ("not found").take 100)
          ((2 : ℚ) - 0) ∧
    (make_request
        { result := .response 404 ("not found"), t_start := 0,
          t_respond := 2, t_body_read := 2 }).2 = true :=
  non200_classification
    { result := .response 404 ("not found"), t_start := 0, t_respond := 2,
      t_body_read := 2 } 404 ("not found") rfl (by decide)

/-- C10.  The three Summary latency fields are the corresponding
seconds values multiplied by 1000 and rounded to exactly two decimal
places: each equals `round2` of the seconds value times 1000, where
`round2 q` is always an integer number of hundredths and differs from
`q` by at most `1/200` — a rounding the spec does not state. -/
theorem summary_ms_rounding (s : RequestStats) (q : ℚ) :
    s.get_summary.avg_response_time_ms
      = round2 ((if s.response_times = [] then 0
          else s.response_times.sum / (s.response_times.length : ℚ)) * 1000) ∧
    s.get_summary.min_response_time_ms
      = round2 ((if s.response_times = [] then 0
          else pyMin s.response_times) * 1000) ∧
    s.get_summary.max_response_time_ms
      = round2 ((if s.response_times = [] then 0
          else pyMax s.response_times) * 1000) ∧
    (∃ k : ℤ, round2 q = (k : ℚ) / 100) ∧
    |round2 q - q| ≤ 1 / 200 :=
  ⟨rfl, rfl, rfl, round2_hundredth q, abs_round2_sub q⟩

end ReqMock
